import Mathlib

/-!
Shallow embedding of the `AppleGiftCardChecker` class from
`example_usage_cn.js` (Apple gift-card balance lookup / redemption script),
together with proofs about its batch driver, retry wrapper, result
classifier, masking and output formatting.

Conventions of the embedding:
* JS strings are Lean `String`s; positions are counted in characters
  (the source codes, statuses and patterns are BMP text, where JS UTF-16
  indices and character indices agree).
* Each JS regular expression used by the script is embedded as a dedicated
  executable matcher over `List Char`, faithful to the regex's semantics
  (leftmost match, greedy/lazy quantifiers, `.` not matching line
  terminators, `/i` folding of ASCII letters).
* Impure inputs (the page text/HTML produced by a browser attempt, the
  clock) are passed in explicitly; thrown JS errors become `Except.error`
  carrying the error message.
-/

/-- ASCII-fold a character, as the `/i` regex flag does on the ASCII
letters occurring in the script's patterns. -/
def foldChar (c : Char) : Char := c.toLower

/-- Case-fold a character list (embedding of matching under the `/i` flag). -/
def foldL (cs : List Char) : List Char := cs.map foldChar

/-- JS regex line terminators (not matched by `.`): LF, CR, LS, PS. -/
def isLineTerm (c : Char) : Bool :=
  c == '\n' || c == '\r' || c.toNat == 0x2028 || c.toNat == 0x2029

/-- JS regex `\s` character class. -/
def isSpaceJS (c : Char) : Bool :=
  c == ' ' || c == '\t' || c == '\n' || c == '\r' ||
  c.toNat == 0x0b || c.toNat == 0x0c || c.toNat == 0xa0 ||
  c.toNat == 0x1680 || (0x2000 ≤ c.toNat && c.toNat ≤ 0x200a) ||
  c.toNat == 0x2028 || c.toNat == 0x2029 || c.toNat == 0x202f ||
  c.toNat == 0x205f || c.toNat == 0x3000 || c.toNat == 0xfeff

/-- Does `cs` start with the literal `pat`? -/
def startsWithL : List Char → List Char → Bool
  | [], _ => true
  | _ :: _, [] => false
  | p :: ps, c :: cs => p == c && startsWithL ps cs

/-- Does the literal `pat` occur anywhere in `cs`?  (Embedding of
`/pat/.test(text)` for an alternation-free literal pattern.) -/
def containsL (pat : List Char) : List Char → Bool
  | [] => startsWithL pat []
  | c :: cs => startsWithL pat (c :: cs) || containsL pat cs

/-- After a matched prefix: does the literal `b` occur further on with only
non-line-terminator characters before it?  (The `.*b` tail of `/a.*b/`.) -/
def seekAfter (b : List Char) : List Char → Bool
  | [] => startsWithL b []
  | c :: cs => startsWithL b (c :: cs) || (!isLineTerm c && seekAfter b cs)

/-- Embedding of `/a.*b/.test(text)` for literals `a`, `b`: some occurrence
of `a` is followed, without an intervening line terminator, by `b`. -/
def seqMatch (a b : List Char) : List Char → Bool
  | [] => startsWithL a [] && seekAfter b []
  | c :: cs =>
    (startsWithL a (c :: cs) && seekAfter b ((c :: cs).drop a.length)) ||
    seqMatch a b cs

/-- Greedy parse of `(\d+\.?\d*)` at the head of `cs`: maximal digit run,
an optional dot, then a maximal digit run; `none` when no leading digit. -/
def numCapAt (cs : List Char) : Option (List Char) :=
  let ds := cs.takeWhile Char.isDigit
  if ds.isEmpty then none
  else
    match cs.drop ds.length with
    | '.' :: rest => some (ds ++ '.' :: rest.takeWhile Char.isDigit)
    | _ => some ds

/-- First capture of `/sym\s*(\d+\.?\d*)/` in `cs` (used for the `¥` and
`$` balance patterns): scan for `sym`, skip spaces, require a number. -/
def symNumSearch (sym : Char) : List Char → Option (List Char)
  | [] => none
  | c :: cs =>
    if c == sym then
      match numCapAt (cs.dropWhile isSpaceJS) with
      | some cap => some cap
      | none => symNumSearch sym cs
    else symNumSearch sym cs

/-- First capture of `/(\d+\.?\d*)\s*kw/` in `cs` (used for the `元` and
trailing-`USD` balance patterns). -/
def numThenKw (kw : List Char) : List Char → Option (List Char)
  | [] => none
  | c :: cs =>
    match numCapAt (c :: cs) with
    | some cap =>
      if startsWithL kw (((c :: cs).drop cap.length).dropWhile isSpaceJS) then
        some cap
      else numThenKw kw cs
    | none => numThenKw kw cs

/-- First capture of `/kw\s*(\d+\.?\d*)/` in `cs` (used for the
leading-`USD` balance pattern). -/
def kwNumSearch (kw : List Char) : List Char → Option (List Char)
  | [] => none
  | c :: cs =>
    if startsWithL kw (c :: cs) then
      match numCapAt (((c :: cs).drop kw.length).dropWhile isSpaceJS) with
      | some cap => some cap
      | none => kwNumSearch kw cs
    else kwNumSearch kw cs

/-- The `.*?(\d+\.?\d*)` tail of a lazy pattern: the earliest following
number, with no line terminator skipped on the way. -/
def seekNum : List Char → Option (List Char)
  | [] => none
  | c :: cs =>
    match numCapAt (c :: cs) with
    | some cap => some cap
    | none => if isLineTerm c then none else seekNum cs

/-- First capture of `/kw.*?(\d+\.?\d*)/` in `cs` (used for the `余额` and
`balance` patterns). -/
def kwLazyNumSearch (kw : List Char) : List Char → Option (List Char)
  | [] => none
  | c :: cs =>
    if startsWithL kw (c :: cs) then
      match seekNum ((c :: cs).drop kw.length) with
      | some cap => some cap
      | none => kwLazyNumSearch kw cs
    else kwLazyNumSearch kw cs

/-- First match of `/[\$¥]\s*(\d+\.?\d*)/` in `cs`, returning
(symbol `match[0].charAt(0)`, whole match `match[0]`, capture `match[1]`);
used on the raw HTML as the classifier's last resort. -/
def htmlMoneySearch : List Char → Option (Char × List Char × List Char)
  | [] => none
  | c :: cs =>
    if c == '$' || c == '¥' then
      let sp := cs.takeWhile isSpaceJS
      match numCapAt (cs.drop sp.length) with
      | some cap => some (c, c :: (sp ++ cap), cap)
      | none => htmlMoneySearch cs
    else htmlMoneySearch cs

/-- `maskCode` from the source: codes shorter than 8 characters (or empty,
which JS treats as falsy) collapse to the placeholder `"****-****"`;
otherwise `code.substring(0, 4) + '-****-****-' + code.substring(code.length - 4)`. -/
def maskCode (code : String) : String :=
  if code.length < 8 then "****-****"
  else ⟨code.data.take 4 ++ "-****-****-".data ++ code.data.drop (code.length - 4)⟩

/-- The record built by `parseBalanceResult` / returned by `checkBalance`
(the JS result object; `balance`/`currency`/`message` start as `null`). -/
structure OutcomeRecord where
  code : String
  status : String
  balance : Option String
  currency : Option String
  message : Option String
  timestamp : String
deriving DecidableEq

/-- `/无效|invalid|incorrect/i.test(pageText)` (errorPatterns[0]). -/
def invalidPat (t : String) : Bool :=
  containsL "无效".data (foldL t.data) || containsL "invalid".data (foldL t.data) ||
  containsL "incorrect".data (foldL t.data)

/-- `/不存在|not found/i.test(pageText)` (errorPatterns[1]). -/
def notFoundPat (t : String) : Bool :=
  containsL "不存在".data (foldL t.data) || containsL "not found".data (foldL t.data)

/-- `/已.*兑换|already.*redeemed/i.test(pageText)` (errorPatterns[2], also
re-tested inside the loop body to pick the already-redeemed branch). -/
def alreadyRedeemedPat (t : String) : Bool :=
  seqMatch "已".data "兑换".data (foldL t.data) ||
  seqMatch "already".data "redeemed".data (foldL t.data)

/-- `/过期|expired/i.test(pageText)` (errorPatterns[3]). -/
def expiredPat (t : String) : Bool :=
  containsL "过期".data (foldL t.data) || containsL "expired".data (foldL t.data)

/-- `/错误|error/i.test(pageText)` (errorPatterns[4]). -/
def errorPat (t : String) : Bool :=
  containsL "错误".data (foldL t.data) || containsL "error".data (foldL t.data)

/-- The `errorPatterns` array of `parseBalanceResult`, in source order. -/
def errorPatterns : List (String → Bool) :=
  [invalidPat, notFoundPat, alreadyRedeemedPat, expiredPat, errorPat]

/-- The `cnBalancePatterns` loop of `parseBalanceResult`: the ordered
first-match over `/¥\s*(\d+\.?\d*)/`, `/(\d+\.?\d*)\s*元/`,
`/余额.*?(\d+\.?\d*)/`, `/balance.*?(\d+\.?\d*)/i`. -/
def cnBalanceSearch (t : List Char) : Option (List Char) :=
  (symNumSearch '¥' t).orElse fun _ =>
  (numThenKw "元".data t).orElse fun _ =>
  (kwLazyNumSearch "余额".data t).orElse fun _ =>
  kwLazyNumSearch "balance".data (foldL t)

/-- The `usBalancePatterns` loop of `parseBalanceResult`: the ordered
first-match over `/\$\s*(\d+\.?\d*)/`, `/USD\s*(\d+\.?\d*)/i`,
`/(\d+\.?\d*)\s*USD/i`. -/
def usBalanceSearch (t : List Char) : Option (List Char) :=
  (symNumSearch '$' t).orElse fun _ =>
  (kwNumSearch "usd".data (foldL t)).orElse fun _ =>
  numThenKw "usd".data (foldL t)

/-- `parseBalanceResult(pageText, pageHTML, code)` from the source.  The
error-pattern loop returns on the first matching pattern; what it returns
depends only on whether the already-redeemed pattern matches, so the loop
is rendered as `errorPatterns.any`.  The two balance loops and the final
HTML fallback are the ordered matches below.  `ts` is the
`new Date().toISOString()` read. -/
def parseBalanceResult (pageText pageHTML code ts : String) : OutcomeRecord :=
  let base : OutcomeRecord :=
    { code := maskCode code, status := "未知", balance := none,
      currency := none, message := none, timestamp := ts }
  if errorPatterns.any fun p => p pageText then
    if alreadyRedeemedPat pageText then
      { base with status := "已兑换", message := some "此礼品卡已被兑换" }
    else
      { base with status := "无效", message := some "卡号无效或有误" }
  else
    match cnBalanceSearch pageText.data with
    | some cap =>
      { base with status := "有效", balance := some ⟨cap⟩, currency := some "¥",
                  message := some ("余额: ¥" ++ ⟨cap⟩) }
    | none =>
      match usBalanceSearch pageText.data with
      | some cap =>
        { base with status := "有效", balance := some ⟨cap⟩, currency := some "$",
                    message := some ("余额: $" ++ ⟨cap⟩) }
      | none =>
        match htmlMoneySearch pageHTML.data with
        | some (sym, m0, cap) =>
          { base with status := "有效", balance := some ⟨cap⟩,
                      currency := some ⟨[sym]⟩,
                      message := some ("余额: " ++ ⟨m0⟩) }
        | none =>
          { base with status := "未知", message := some "无法解析查询结果" }

/-- The record built by `parseRedemptionResult` / returned by `redeemCard`
(no balance/currency fields in the source's redemption result object). -/
structure RedemptionRecord where
  code : String
  status : String
  message : Option String
  timestamp : String
deriving DecidableEq

/-- `/success|redeemed|added.*account|credited/i.test(pageText)`
(successPatterns[0] of `parseRedemptionResult`). -/
def redeemSuccess1 (t : String) : Bool :=
  containsL "success".data (foldL t.data) || containsL "redeemed".data (foldL t.data) ||
  seqMatch "added".data "account".data (foldL t.data) ||
  containsL "credited".data (foldL t.data)

/-- `/已.*兑换|成功/i.test(pageText)` (successPatterns[1]). -/
def redeemSuccess2 (t : String) : Bool :=
  seqMatch "已".data "兑换".data (foldL t.data) || containsL "成功".data (foldL t.data)

/-- The `successPatterns` array of `parseRedemptionResult`, in source order. -/
def successPatterns : List (String → Bool) := [redeemSuccess1, redeemSuccess2]

/-- `/already.*used|already.*redeemed|已.*使用|已.*兑换/i.test(pageText)`
(the first redemption error pattern). -/
def redeemAlreadyUsedPat (t : String) : Bool :=
  seqMatch "already".data "used".data (foldL t.data) ||
  seqMatch "already".data "redeemed".data (foldL t.data) ||
  seqMatch "已".data "使用".data (foldL t.data) ||
  seqMatch "已".data "兑换".data (foldL t.data)

/-- `/invalid|incorrect|无效/i.test(pageText)` (second redemption error pattern). -/
def redeemInvalidPat (t : String) : Bool :=
  containsL "invalid".data (foldL t.data) || containsL "incorrect".data (foldL t.data) ||
  containsL "无效".data (foldL t.data)

/-- `/expired|过期/i.test(pageText)` (third redemption error pattern). -/
def redeemExpiredPat (t : String) : Bool :=
  containsL "expired".data (foldL t.data) || containsL "过期".data (foldL t.data)

/-- `/region|country|地区/i.test(pageText)` (fourth redemption error pattern). -/
def redeemRegionPat (t : String) : Bool :=
  containsL "region".data (foldL t.data) || containsL "country".data (foldL t.data) ||
  containsL "地区".data (foldL t.data)

/-- `/error|错误/i.test(pageText)` (fifth redemption error pattern). -/
def redeemErrorPat (t : String) : Bool :=
  containsL "error".data (foldL t.data) || containsL "错误".data (foldL t.data)

/-- The `errorPatterns` array of `parseRedemptionResult`: pattern together
with its canned message, in source order. -/
def redemptionErrorPatterns : List ((String → Bool) × String) :=
  [(redeemAlreadyUsedPat, "兑换码已被使用"),
   (redeemInvalidPat, "无效的兑换码"),
   (redeemExpiredPat, "兑换码已过期"),
   (redeemRegionPat, "兑换码在此地区无效"),
   (redeemErrorPat, "兑换时发生错误")]

/-- `parseRedemptionResult(pageText, pageHTML, code)` from the source:
success patterns are tested first (first match wins and all yield the same
record), then the error-pattern/message pairs in order, else unknown.
`pageHTML` is accepted but, as in the source, never consulted. -/
def parseRedemptionResult (pageText pageHTML code ts : String) : RedemptionRecord :=
  let base : RedemptionRecord :=
    { code := maskCode code, status := "未知", message := none, timestamp := ts }
  let _ := pageHTML
  if successPatterns.any fun p => p pageText then
    { base with status := "已兑换", message := some "成功兑换到Apple账户" }
  else
    match redemptionErrorPatterns.find? fun pm => pm.1 pageText with
    | some pm => { base with status := "失败", message := some pm.2 }
    | none => { base with status := "未知", message := some "无法确定兑换状态" }

/-- One browser attempt of `checkBalance` (everything inside its `try`
block up to the text/HTML capture): either the captured
`(pageText, pageHTML)` or the message of the thrown error.  The attempt
environment maps the attempt number to that outcome. -/
def Attempts : Type := Nat → Except String (String × String)

/-- The terminal record the `catch` block of `checkBalance` returns once
retries are exhausted: status `错误` and the last error's message. -/
def balanceErrorRecord (code msg ts : String) : OutcomeRecord :=
  { code := maskCode code, status := "错误", balance := none,
    currency := none, message := some msg, timestamp := ts }

/-- The recursion of `checkBalance(code, attempt)`: the source retries by
re-invoking itself with `attempt + 1` while `attempt < retryAttempts`; it
is embedded structurally on `remaining = retryAttempts - attempt`.  The
returned `Nat` counts the attempts actually performed. -/
def checkBalanceGo (att : Attempts) (code ts : String) :
    Nat → Nat → OutcomeRecord × Nat
  | attempt, 0 =>
    match att attempt with
    | .ok (text, html) => (parseBalanceResult text html code ts, 1)
    | .error msg => (balanceErrorRecord code msg ts, 1)
  | attempt, remaining + 1 =>
    match att attempt with
    | .ok (text, html) => (parseBalanceResult text html code ts, 1)
    | .error _ =>
      let p := checkBalanceGo att code ts (attempt + 1) remaining
      (p.1, p.2 + 1)

/-- `checkBalance(code)` with `config.retryAttempts = retryAttempts`:
attempts start at 1. -/
def checkBalance (retryAttempts : Nat) (att : Attempts) (code ts : String) :
    OutcomeRecord × Nat :=
  checkBalanceGo att code ts 1 (retryAttempts - 1)

/-- The terminal record the `catch` block of `redeemCard` returns once
retries are exhausted. -/
def redeemErrorRecord (code msg ts : String) : RedemptionRecord :=
  { code := maskCode code, status := "兑换失败", message := some msg, timestamp := ts }

/-- The recursion of `redeemCard(code, appleId, password, attempt)`,
embedded like `checkBalanceGo`. -/
def redeemCardGo (att : Attempts) (code ts : String) :
    Nat → Nat → RedemptionRecord × Nat
  | attempt, 0 =>
    match att attempt with
    | .ok (text, html) => (parseRedemptionResult text html code ts, 1)
    | .error msg => (redeemErrorRecord code msg ts, 1)
  | attempt, remaining + 1 =>
    match att attempt with
    | .ok (text, html) => (parseRedemptionResult text html code ts, 1)
    | .error _ =>
      let p := redeemCardGo att code ts (attempt + 1) remaining
      (p.1, p.2 + 1)

/-- `redeemCard(code, appleId, password)`: attempts start at 1. -/
def redeemCard (retryAttempts : Nat) (att : Attempts) (code ts : String) :
    RedemptionRecord × Nat :=
  redeemCardGo att code ts 1 (retryAttempts - 1)

/-- The `processBatch` loop: `this.results = []`, then for each code in
order push `await this.checkBalance(code)` (the accumulator is
`this.results`; the inter-card delay does not affect the records).
`env` gives each code its attempt environment. -/
def processBatchGo (retryAttempts : Nat) (env : String → Attempts) (ts : String) :
    List String → List OutcomeRecord → List OutcomeRecord
  | [], acc => acc
  | code :: rest, acc =>
    processBatchGo retryAttempts env ts rest
      (acc ++ [(checkBalance retryAttempts (env code) code ts).1])

/-- `processBatch(codes)` from the source. -/
def processBatch (retryAttempts : Nat) (env : String → Attempts) (ts : String)
    (codes : List String) : List OutcomeRecord :=
  processBatchGo retryAttempts env ts codes []

/-- The `redeemBatch` loop: `redemptionResults = []`, then for each code
push `await this.redeemCard(code, appleId, password)`. -/
def redeemBatchGo (retryAttempts : Nat) (env : String → Attempts) (ts : String) :
    List String → List RedemptionRecord → List RedemptionRecord
  | [], acc => acc
  | code :: rest, acc =>
    redeemBatchGo retryAttempts env ts rest
      (acc ++ [(redeemCard retryAttempts (env code) code ts).1])

/-- `redeemBatch(codes, appleId, password)` from the source. -/
def redeemBatch (retryAttempts : Nat) (env : String → Attempts) (ts : String)
    (codes : List String) : List RedemptionRecord :=
  redeemBatchGo retryAttempts env ts codes []

/-- The balance-lookup URL built in `checkBalance` from `config.region`. -/
def balanceUrl (region : String) : String :=
  "https://secure.store.apple.com/" ++ region ++ "/shop/gift-cards/balance"

/-- The `possibleSelectors` array `checkBalance` probes for the gift-card
input field, in source order. -/
def possibleSelectors : List String :=
  ["input[name=\"giftCardNumber\"]",
   "input[id=\"giftCardNumber\"]",
   "input[type=\"text\"]",
   "input[placeholder*=\"code\"]",
   "input[placeholder*=\"卡\"]",
   "input[aria-label*=\"card\"]"]

/-- One `page.$(selector)` probe: the browser may throw (caught by the
loop's `try/catch` and treated as a miss), resolve to no element (`null`),
or resolve to the first matching element. -/
def ProbeEnv (E : Type) : Type := String → Except String (Option E)

/-- The probing loop of `checkBalance`: try each selector in order; a
thrown probe (`catch { continue }`) and a `null` result both fall through
to the next selector; the first selector resolving to an element wins. -/
def probeSelectors {E : Type} (q : ProbeEnv E) : List String → Option E
  | [] => none
  | s :: rest =>
    match q s with
    | .ok (some e) => some e
    | .ok none => probeSelectors q rest
    | .error _ => probeSelectors q rest

/-- Input-field location in `checkBalance`: probe `possibleSelectors`;
if none resolves, fall back to `page.$$('input[type="text"]')` and take
its first element; if that is also empty, throw
`new Error('无法找到礼品卡输入框')`.  `textInputs` is the element list the
fallback query returns. -/
def findInputField {E : Type} (q : ProbeEnv E) (textInputs : List E) :
    Except String E :=
  match probeSelectors q possibleSelectors with
  | some e => .ok e
  | none =>
    match textInputs with
    | e :: _ => .ok e
    | [] => .error "无法找到礼品卡输入框"

/-- The `metadata` block `saveResults` writes (JS keys in order:
`生成时间`, `总卡片数`, `有效卡片`, `无效卡片`, `已兑换卡片`, `错误`). -/
structure SaveMetadata where
  generatedAt : String
  total : Nat
  valid : Nat
  invalid : Nat
  redeemed : Nat
  error : Nat
deriving DecidableEq

/-- The JSON document `saveResults` writes: the metadata block followed by
the accumulated result list. -/
structure SaveOutput where
  metadata : SaveMetadata
  results : List OutcomeRecord
deriving DecidableEq

/-- `saveResults(filename)` from the source, as the pure document it
serialises from `this.results` (`ts` is the `new Date().toISOString()`
read).  The counts are filters on the records' status strings; note the
source writes no count for the `未知` status. -/
def saveResults (results : List OutcomeRecord) (ts : String) : SaveOutput :=
  { metadata :=
      { generatedAt := ts,
        total := results.length,
        valid := (results.filter fun r => r.status == "有效").length,
        invalid := (results.filter fun r => r.status == "无效").length,
        redeemed := (results.filter fun r => r.status == "已兑换").length,
        error := (results.filter fun r => r.status == "错误").length },
    results := results }

/-- One CSV row of `saveCSV`: every field quoted, `null` balance/currency/
message rendered as the empty string (the JS `|| ''`). -/
def csvRow (r : OutcomeRecord) : String :=
  "\"" ++ r.code ++ "\",\"" ++ r.status ++ "\",\"" ++ r.balance.getD "" ++
  "\",\"" ++ r.currency.getD "" ++ "\",\"" ++ r.message.getD "" ++
  "\",\"" ++ r.timestamp ++ "\"\n"

/-- The header line `saveCSV` starts from. -/
def csvHeader : String := "兑换码,状态,余额,货币,消息,时间\n"

/-- The `forEach` accumulation of `saveCSV`: `csv += row` per record. -/
def saveCSVGo : List OutcomeRecord → String → String
  | [], acc => acc
  | r :: rest, acc => saveCSVGo rest (acc ++ csvRow r)

/-- `saveCSV(filename)` from the source, as the pure text it writes. -/
def saveCSV (results : List OutcomeRecord) : String :=
  saveCSVGo results csvHeader

/-- Specification-side form of the CSV body: the rows of the records, in
order, concatenated.  Compared against the accumulating `saveCSVGo`. -/
def csvRows : List OutcomeRecord → String
  | [] => ""
  | r :: rest => csvRow r ++ csvRows rest

/-- When every attempt throws, the retry recursion performs one attempt
per level, ends at `attempt + remaining`, and counts `remaining + 1`
attempts in total. -/
theorem checkBalanceGo_all_fail (att : Attempts) (e : Nat → String) (code ts : String)
    (h : ∀ k, att k = .error (e k)) :
    ∀ (remaining attempt : Nat),
      checkBalanceGo att code ts attempt remaining =
        (balanceErrorRecord code (e (attempt + remaining)) ts, remaining + 1)
  | 0, attempt => by simp [checkBalanceGo, h attempt]
  | r + 1, attempt => by
    have ih := checkBalanceGo_all_fail att e code ts h r (attempt + 1)
    have hx : attempt + 1 + r = attempt + (r + 1) := by omega
    simp [checkBalanceGo, h attempt, ih, hx]

/-- C4: with `retryAttempts = N` (`N ≥ 1`), if every attempt of
`checkBalance` fails, exactly `N` attempts are made, and the caller
receives (rather than a propagated failure) the single terminal record
with the transient-error status `错误` and the last (`N`-th) error's
message. -/
theorem checkBalance_retry_bound (N : Nat) (att : Attempts) (e : Nat → String)
    (code ts : String) (hN : 1 ≤ N) (h : ∀ k, att k = .error (e k)) :
    checkBalance N att code ts = (balanceErrorRecord code (e N) ts, N) := by
  unfold checkBalance
  rw [checkBalanceGo_all_fail att e code ts h (N - 1) 1]
  have h1 : 1 + (N - 1) = N := by omega
  have h2 : N - 1 + 1 = N := by omega
  rw [h1, h2]

/-- Witness for `checkBalance_retry_bound` at `N = 3` with attempts that
always fail. -/
theorem checkBalance_retry_bound_witness :
    1 ≤ 3 ∧
    checkBalance 3 (fun k => .error (toString k)) "X87L-WQ5G-7FW3-VGCW" "T" =
      (balanceErrorRecord "X87L-WQ5G-7FW3-VGCW" (toString 3) "T", 3) :=
  ⟨by omega,
   checkBalance_retry_bound 3 (fun k => .error (toString k)) (fun k => toString k)
     "X87L-WQ5G-7FW3-VGCW" "T" (by omega) (fun _ => rfl)⟩

/-- Counterexample to C2's idempotence: masking a code shorter than 8
characters yields the placeholder `"****-****"`, which is itself 9
characters long, so masking it again yields `"****-****-****-****"`. -/
theorem maskCode_not_idempotent_short :
    maskCode (maskCode "abc") ≠ maskCode "abc" ∧
    maskCode "abc" = "****-****" ∧
    maskCode (maskCode "abc") = "****-****-****-****" := by decide

/-- Counterexample to C5: the text `"Your code could not be found"` does
not contain the contiguous phrase `not found` that
`/不存在|not found/i` requires (nor any other error phrase), so
`parseBalanceResult` classifies it `未知`, not `无效`. -/
theorem parseBalance_could_not_be_found_unknown :
    (parseBalanceResult "Your code could not be found" "" "X87L-WQ5G-7FW3-VGCW"
        "2026-01-01T00:00:00.000Z").status = "未知" ∧
    (parseBalanceResult "Your code could not be found" "" "X87L-WQ5G-7FW3-VGCW"
        "2026-01-01T00:00:00.000Z").status ≠ "无效" := by decide

/-- C5 as amended: the concrete classifications of `parseBalanceResult`,
with the could-not-be-found text yielding `未知` (the code's behavior)
rather than the claimed `无效`. -/
theorem parseBalance_examples :
    (parseBalanceResult "该卡已兑换" "" "X87L-WQ5G-7FW3-VGCW" "T").status = "已兑换" ∧
    (parseBalanceResult "¥88.00 可用余额" "" "X87L-WQ5G-7FW3-VGCW" "T").status = "有效" ∧
    (parseBalanceResult "¥88.00 可用余额" "" "X87L-WQ5G-7FW3-VGCW" "T").balance = some "88.00" ∧
    (parseBalanceResult "¥88.00 可用余额" "" "X87L-WQ5G-7FW3-VGCW" "T").currency = some "¥" ∧
    (parseBalanceResult "Your code could not be found" "" "X87L-WQ5G-7FW3-VGCW" "T").status = "未知" ∧
    (parseBalanceResult "" "" "X87L-WQ5G-7FW3-VGCW" "T").status = "未知" ∧
    (parseBalanceResult "" "" "X87L-WQ5G-7FW3-VGCW" "T").balance = none := by decide

/-- Counterexample to C7: on a text carrying both a dollar and a yuan
amount, `parseBalanceResult` returns the yuan match — the Chinese-yuan
patterns are tried first unconditionally, since the function never reads
`config.region`; with region `'us'` the claim would require the dollar
match (`$`/`5.00`) instead. -/
theorem parseBalance_region_ignored :
    (parseBalanceResult "$5.00 ¥3.00" "" "X87L-WQ5G-7FW3-VGCW" "T").currency = some "¥" ∧
    (parseBalanceResult "$5.00 ¥3.00" "" "X87L-WQ5G-7FW3-VGCW" "T").balance = some "3.00" ∧
    (some "¥" : Option String) ≠ some "$" := by decide

/-- Counterexample to C8: for a result list holding one record of status
`未知`, the metadata block `saveResults` produces carries only the total
and the four per-category counts `有效`/`无效`/`已兑换`/`错误` (all 0
here) — no count for the `未知` category exists in it. -/
theorem saveResults_metadata_omits_unknown_count :
    (saveResults [{ code := "****-****", status := "未知", balance := none,
                    currency := none, message := some "无法解析查询结果",
                    timestamp := "T" }] "T").metadata =
      { generatedAt := "T", total := 1, valid := 0, invalid := 0,
        redeemed := 0, error := 0 } := by decide

/-- C2 as amended: `maskCode` is idempotent on every code of length ≥ 8
(but not on shorter ones, per the counterexample); for inputs shorter
than 8 it returns the fixed placeholder; and for length ≥ 8 it is lossy,
revealing only the first 4 and last 4 characters: any two such codes
agreeing on those mask identically. -/
theorem maskCode_idempotent_ge8_and_lossy (c c' : String) :
    (8 ≤ c.length → maskCode (maskCode c) = maskCode c) ∧
    (c.length < 8 → maskCode c = "****-****") ∧
    (8 ≤ c.length → 8 ≤ c'.length → c.data.take 4 = c'.data.take 4 →
      c.data.drop (c.length - 4) = c'.data.drop (c'.length - 4) →
      maskCode c = maskCode c') := by
  have hlen : ∀ s : String, s.length = s.data.length := fun _ => rfl
  refine ⟨fun h => ?_, fun h => by rw [maskCode, if_pos h], fun h h' ht hd => ?_⟩
  · have hc : ¬ c.length < 8 := by omega
    have hmask : maskCode c =
        ⟨c.data.take 4 ++ "-****-****-".data ++ c.data.drop (c.length - 4)⟩ := by
      rw [maskCode, if_neg hc]
    have ht4 : (c.data.take 4).length = 4 := by
      rw [List.length_take]; rw [hlen c] at h; omega
    have hd4 : (c.data.drop (c.length - 4)).length = 4 := by
      rw [List.length_drop]; rw [hlen c] at h ⊢; omega
    have hm11 : ("-****-****-".data).length = 11 := by decide
    have hL : (String.mk (c.data.take 4 ++ "-****-****-".data ++
        c.data.drop (c.length - 4))).length = 19 := by
      rw [hlen, List.length_append, List.length_append, ht4, hd4, hm11]
    rw [hmask, maskCode, if_neg (by rw [hL]; omega), hL]
    congr 1
    have h1 : (c.data.take 4 ++ "-****-****-".data ++
        c.data.drop (c.length - 4)).take 4 = c.data.take 4 := by
      rw [List.append_assoc]
      exact List.take_left' ht4
    have h2 : (c.data.take 4 ++ "-****-****-".data ++
        c.data.drop (c.length - 4)).drop (19 - 4) = c.data.drop (c.length - 4) :=
      List.drop_left' (by rw [List.length_append, ht4, hm11])
    exact congrArg₂ (fun a b => a ++ "-****-****-".data ++ b) h1 h2
  · have hc : ¬ c.length < 8 := by omega
    have hc' : ¬ c'.length < 8 := by omega
    rw [maskCode, if_neg hc, maskCode, if_neg hc', ht, hd]

/-- Witness for `maskCode_idempotent_ge8_and_lossy`: idempotence on a
10-character code, the short-input placeholder, and two codes sharing
first and last 4 characters masking identically. -/
theorem maskCode_idempotent_ge8_and_lossy_witness :
    maskCode (maskCode "ABCDEFGHIJ") = maskCode "ABCDEFGHIJ" ∧
    maskCode "abc" = "****-****" ∧
    maskCode "ABCDxxGHIJ" = maskCode "ABCDEFGHIJ" :=
  ⟨(maskCode_idempotent_ge8_and_lossy "ABCDEFGHIJ" "x").1 (by decide),
   (maskCode_idempotent_ge8_and_lossy "abc" "x").2.1 (by decide),
   (maskCode_idempotent_ge8_and_lossy "ABCDxxGHIJ" "ABCDEFGHIJ").2.2
     (by decide) (by decide) (by decide) (by decide)⟩

/-- The balance-batch loop is the ordered map of `checkBalance` over the
codes, appended after whatever is already accumulated. -/
theorem processBatchGo_eq (retryAttempts : Nat) (env : String → Attempts) (ts : String) :
    ∀ (codes : List String) (acc : List OutcomeRecord),
      processBatchGo retryAttempts env ts codes acc =
        acc ++ codes.map fun c => (checkBalance retryAttempts (env c) c ts).1
  | [], acc => by simp [processBatchGo]
  | c :: cs, acc => by
    rw [processBatchGo, processBatchGo_eq retryAttempts env ts cs]
    simp

/-- The redemption-batch loop is the ordered map of `redeemCard` over the
codes, appended after whatever is already accumulated. -/
theorem redeemBatchGo_eq (retryAttempts : Nat) (env : String → Attempts) (ts : String) :
    ∀ (codes : List String) (acc : List RedemptionRecord),
      redeemBatchGo retryAttempts env ts codes acc =
        acc ++ codes.map fun c => (redeemCard retryAttempts (env c) c ts).1
  | [], acc => by simp [redeemBatchGo]
  | c :: cs, acc => by
    rw [redeemBatchGo, redeemBatchGo_eq retryAttempts env ts cs]
    simp

/-- C1: `processBatch` and `redeemBatch` return one record per input code,
in input order: the output length equals the input length and the `i`-th
output entry is the (total, never-throwing) per-code record of the `i`-th
input code — no code is skipped or duplicated. -/
theorem batch_preserves_length_and_order (retryAttempts : Nat)
    (env : String → Attempts) (ts : String) (codes : List String) :
    (processBatch retryAttempts env ts codes).length = codes.length ∧
    (∀ i : Nat, (processBatch retryAttempts env ts codes)[i]? =
      codes[i]?.map fun c => (checkBalance retryAttempts (env c) c ts).1) ∧
    (redeemBatch retryAttempts env ts codes).length = codes.length ∧
    (∀ i : Nat, (redeemBatch retryAttempts env ts codes)[i]? =
      codes[i]?.map fun c => (redeemCard retryAttempts (env c) c ts).1) := by
  have hp : processBatch retryAttempts env ts codes =
      codes.map fun c => (checkBalance retryAttempts (env c) c ts).1 := by
    rw [processBatch, processBatchGo_eq]; simp
  have hr : redeemBatch retryAttempts env ts codes =
      codes.map fun c => (redeemCard retryAttempts (env c) c ts).1 := by
    rw [redeemBatch, redeemBatchGo_eq]; simp
  refine ⟨by rw [hp, List.length_map], fun i => ?_, by rw [hr, List.length_map], fun i => ?_⟩
  · rw [hp, List.getElem?_map]
  · rw [hr, List.getElem?_map]

/-- C3: a page text matching both the generic invalid pattern and the
already-redeemed pattern is classified as already redeemed, never as
invalid.  For the balance lookup this is the `已兑换` status with its
canned message; for the redemption parser the outcome is the
already-redeemed one — either the `已兑换` status (when a success phrase,
e.g. `redeemed` itself, also fires) or the `兑换码已被使用` message — and
never the invalid message `无效的兑换码`. -/
theorem already_redeemed_priority (text html code ts : String) :
    (invalidPat text = true → alreadyRedeemedPat text = true →
      (parseBalanceResult text html code ts).status = "已兑换" ∧
      (parseBalanceResult text html code ts).message = some "此礼品卡已被兑换") ∧
    (redeemInvalidPat text = true → redeemAlreadyUsedPat text = true →
      (parseRedemptionResult text html code ts).message ≠ some "无效的兑换码" ∧
      ((parseRedemptionResult text html code ts).status = "已兑换" ∨
       (parseRedemptionResult text html code ts).message = some "兑换码已被使用")) := by
  constructor
  · intro h1 h2
    have hAny : (errorPatterns.any fun p => p text) = true := by
      simp [errorPatterns, h2]
    simp [parseBalanceResult, hAny, h2]
  · intro h1 h2
    by_cases hS : (successPatterns.any fun p => p text) = true
    · have : (parseRedemptionResult text html code ts).status = "已兑换" ∧
          (parseRedemptionResult text html code ts).message = some "成功兑换到Apple账户" := by
        simp [parseRedemptionResult, hS]
      refine ⟨?_, Or.inl this.1⟩
      rw [this.2]
      decide
    · have hfind : (redemptionErrorPatterns.find? fun pm => pm.1 text) =
          some (redeemAlreadyUsedPat, "兑换码已被使用") :=
        List.find?_cons_of_pos _ h2
      have : (parseRedemptionResult text html code ts).message = some "兑换码已被使用" := by
        simp [parseRedemptionResult, hS, redemptionErrorPatterns] at hfind ⊢
        simp [hfind]
      refine ⟨?_, Or.inr this⟩
      rw [this]
      decide

/-- Witness for `already_redeemed_priority` on the text `"无效 已兑换"`,
which matches both pattern families in both classifiers. -/
theorem already_redeemed_priority_witness :
    invalidPat "无效 已兑换" = true ∧ alreadyRedeemedPat "无效 已兑换" = true ∧
    redeemInvalidPat "无效 已兑换" = true ∧ redeemAlreadyUsedPat "无效 已兑换" = true ∧
    (parseBalanceResult "无效 已兑换" "" "X" "T").status = "已兑换" ∧
    (parseRedemptionResult "无效 已兑换" "" "X" "T").message ≠ some "无效的兑换码" :=
  ⟨by decide, by decide, by decide, by decide,
   ((already_redeemed_priority "无效 已兑换" "" "X" "T").1 (by decide) (by decide)).1,
   ((already_redeemed_priority "无效 已兑换" "" "X" "T").2 (by decide) (by decide)).1⟩

/-- C6: whenever any error-phrase pattern matches the page text,
`parseBalanceResult` never assigns the `有效` status and never sets a
balance or currency — the amount-pattern passes are unreachable, even if
the text also carries a currency amount. -/
theorem balance_error_pass_blocks_amount (text html code ts : String)
    (h : (errorPatterns.any fun p => p text) = true) :
    (parseBalanceResult text html code ts).status ≠ "有效" ∧
    (parseBalanceResult text html code ts).balance = none ∧
    (parseBalanceResult text html code ts).currency = none := by
  by_cases hA : alreadyRedeemedPat text = true <;>
    simp [parseBalanceResult, h, hA]

/-- Witness for `balance_error_pass_blocks_amount` on a text carrying both
an error phrase and a yuan amount. -/
theorem balance_error_pass_blocks_amount_witness :
    (errorPatterns.any fun p => p "invalid ¥88.00") = true ∧
    (parseBalanceResult "invalid ¥88.00" "" "X" "T").status ≠ "有效" ∧
    (parseBalanceResult "invalid ¥88.00" "" "X" "T").balance = none ∧
    (parseBalanceResult "invalid ¥88.00" "" "X" "T").currency = none :=
  ⟨by decide,
   (balance_error_pass_blocks_amount "invalid ¥88.00" "" "X" "T" (by decide)).1,
   (balance_error_pass_blocks_amount "invalid ¥88.00" "" "X" "T" (by decide)).2.1,
   (balance_error_pass_blocks_amount "invalid ¥88.00" "" "X" "T" (by decide)).2.2⟩

/-- C7 as amended: the region selector determines only the target URL
(`balanceUrl` embeds the region verbatim, injectively); the amount-pattern
order of `parseBalanceResult` is fixed regardless of region — the
Chinese-yuan pattern list is always tried first, and the US-dollar list is
consulted only when it yields nothing. -/
theorem region_selects_url_cn_patterns_fixed :
    (∀ r₁ r₂ : String, balanceUrl r₁ = balanceUrl r₂ → r₁ = r₂) ∧
    (∀ text html code ts : String, ∀ cap : List Char,
      (errorPatterns.any fun p => p text) = false →
      cnBalanceSearch text.data = some cap →
      (parseBalanceResult text html code ts).currency = some "¥" ∧
      (parseBalanceResult text html code ts).balance = some ⟨cap⟩) ∧
    (∀ text html code ts : String, ∀ cap : List Char,
      (errorPatterns.any fun p => p text) = false →
      cnBalanceSearch text.data = none →
      usBalanceSearch text.data = some cap →
      (parseBalanceResult text html code ts).currency = some "$") := by
  refine ⟨fun r₁ r₂ h => ?_, fun text html code ts cap hE hCN => ?_,
          fun text html code ts cap hE hCN hUS => ?_⟩
  · have hd := congrArg String.data h
    simp only [balanceUrl, String.data_append] at hd
    have h1 := List.append_cancel_right hd
    have h2 := List.append_cancel_left h1
    cases r₁; cases r₂
    exact congrArg String.mk (by simpa using h2)
  · simp [parseBalanceResult, hE, hCN]
  · simp [parseBalanceResult, hE, hCN, hUS]

/-- Witness for `region_selects_url_cn_patterns_fixed`: distinct regions
give distinct URLs, a text where the yuan pattern wins, and a text where
only the dollar pattern matches. -/
theorem region_selects_url_cn_patterns_fixed_witness :
    balanceUrl "us" ≠ balanceUrl "cn" ∧
    (parseBalanceResult "¥1 $2" "" "X" "T").currency = some "¥" ∧
    (parseBalanceResult "only $2" "" "X" "T").currency = some "$" :=
  ⟨fun h => absurd (region_selects_url_cn_patterns_fixed.1 "us" "cn" h) (by decide),
   (region_selects_url_cn_patterns_fixed.2.1 "¥1 $2" "" "X" "T" "1".data
     (by decide) (by decide)).1,
   region_selects_url_cn_patterns_fixed.2.2 "only $2" "" "X" "T" "2".data
     (by decide) (by decide) (by decide)⟩

/-- The CSV accumulation appends the rows of the remaining records, in
order, after the text accumulated so far. -/
theorem saveCSVGo_eq : ∀ (rs : List OutcomeRecord) (acc : String),
    saveCSVGo rs acc = acc ++ csvRows rs
  | [], acc => by simp [saveCSVGo, csvRows]
  | r :: rest, acc => by
    rw [saveCSVGo, csvRows, saveCSVGo_eq rest, String.append_assoc]

/-- C8 as amended: the JSON document of `saveResults` holds a metadata
block with the generation time, the total, and per-status counts for the
`有效`, `无效`, `已兑换` and `错误` categories (there is no count for
`未知`, per the counterexample), each equal to the number of accumulated
records with that status, followed by the result list in order; the
companion CSV is the header line followed by one row per record in order,
with the masked code, status, balance, currency, message and timestamp
fields each quoted. -/
theorem saveResults_metadata_and_csv (results : List OutcomeRecord) (ts : String) :
    (saveResults results ts).results = results ∧
    (saveResults results ts).metadata.generatedAt = ts ∧
    (saveResults results ts).metadata.total = results.length ∧
    (saveResults results ts).metadata.valid =
      results.countP (fun r => r.status == "有效") ∧
    (saveResults results ts).metadata.invalid =
      results.countP (fun r => r.status == "无效") ∧
    (saveResults results ts).metadata.redeemed =
      results.countP (fun r => r.status == "已兑换") ∧
    (saveResults results ts).metadata.error =
      results.countP (fun r => r.status == "错误") ∧
    saveCSV results = csvHeader ++ csvRows results := by
  refine ⟨rfl, rfl, rfl, ?_, ?_, ?_, ?_, saveCSVGo_eq results csvHeader⟩ <;>
    simp [saveResults, List.countP_eq_length_filter]

/-- C9: the input-field step of `checkBalance` probes the candidate
selectors in listed order and uses the first that resolves to an element;
probes that resolve to nothing or throw are skipped, never propagated;
when no candidate resolves, the first text input on the page is used; and
only when that list is also empty does the step fail, with the
element-not-found error message `无法找到礼品卡输入框`. -/
theorem findInputField_probe_order {E : Type} (q : ProbeEnv E) :
    (∀ (pre post : List String) (s : String) (e : E),
      (∀ s' ∈ pre, ∀ e' : E, q s' ≠ .ok (some e')) → q s = .ok (some e) →
      probeSelectors q (pre ++ s :: post) = some e) ∧
    (∀ (textInputs : List E) (e : E),
      probeSelectors q possibleSelectors = some e →
      findInputField q textInputs = .ok e) ∧
    (∀ (e : E) (rest : List E),
      probeSelectors q possibleSelectors = none →
      findInputField q (e :: rest) = .ok e) ∧
    (probeSelectors q possibleSelectors = none →
      findInputField q ([] : List E) = .error "无法找到礼品卡输入框") := by
  refine ⟨fun pre => ?_, fun textInputs e h => ?_, fun e rest h => ?_, fun h => ?_⟩
  · induction pre with
    | nil =>
      intro post s e _ hq
      simp [probeSelectors, hq]
    | cons p ps ih =>
      intro post s e hmiss hq
      have hp := hmiss p (by simp)
      rw [List.cons_append, probeSelectors]
      rcases hqp : q p with msg | oe
      · exact ih post s e (fun s' hs' => hmiss s' (by simp [hs'])) hq
      · rcases oe with _ | e'
        · exact ih post s e (fun s' hs' => hmiss s' (by simp [hs'])) hq
        · exact absurd hqp (hp e')
  · simp [findInputField, h]
  · simp [findInputField, h]
  · simp [findInputField, h]

/-- Witness for `findInputField_probe_order`: a probe environment where
the first two selectors throw and the third resolves; and one where no
selector resolves, exercising the first-text-input fallback and the
element-not-found failure. -/
theorem findInputField_probe_order_witness :
    probeSelectors
        (fun s => if s == "input[type=\"text\"]" then Except.ok (some 7)
                  else Except.error "boom")
        possibleSelectors = some 7 ∧
    findInputField (fun _ => (Except.ok none : Except String (Option Nat))) [5] =
      .ok 5 ∧
    findInputField (fun _ => (Except.ok none : Except String (Option Nat)))
      ([] : List Nat) = .error "无法找到礼品卡输入框" := by
  refine ⟨?_, ?_, ?_⟩
  · have h := (findInputField_probe_order
        (fun s => if s == "input[type=\"text\"]" then Except.ok (some 7)
                  else Except.error "boom")).1
        ["input[name=\"giftCardNumber\"]", "input[id=\"giftCardNumber\"]"]
        ["input[placeholder*=\"code\"]", "input[placeholder*=\"卡\"]",
         "input[aria-label*=\"card\"]"]
        "input[type=\"text\"]" 7
        (by intro s' hs' e'; fin_cases hs' <;> simp)
        (by simp)
    exact h
  · exact (findInputField_probe_order
        (fun _ => (Except.ok none : Except String (Option Nat)))).2.2.1 5 [] rfl
  · exact (findInputField_probe_order
        (fun _ => (Except.ok none : Except String (Option Nat)))).2.2.2 rfl

/-- C10: for every input, the status `parseBalanceResult` assigns is one
of `已兑换`, `无效`, `有效`, `未知` — the spec's `expired` and
`regionMismatch` categories are unreachable in the balance classifier,
since every error-pattern match other than the already-redeemed one
(including texts matching `/过期|expired/i`) collapses to the generic
`无效` status. -/
theorem parseBalance_status_closed_set (text html code ts : String) :
    (parseBalanceResult text html code ts).status ∈
      ["已兑换", "无效", "有效", "未知"] ∧
    ((errorPatterns.any fun p => p text) = true → alreadyRedeemedPat text = false →
      (parseBalanceResult text html code ts).status = "无效") := by
  constructor
  · unfold parseBalanceResult
    split
    · split <;> simp
    · split
      · simp
      · split
        · simp
        · split <;> simp
  · intro hE hA
    simp [parseBalanceResult, hE, hA]

/-- Witness for `parseBalance_status_closed_set` on a text matching only
the expired pattern: it is classified `无效`. -/
theorem parseBalance_status_closed_set_witness :
    (errorPatterns.any fun p => p "该卡过期") = true ∧
    alreadyRedeemedPat "该卡过期" = false ∧
    (parseBalanceResult "该卡过期" "" "X" "T").status = "无效" ∧
    (parseBalanceResult "该卡过期" "" "X" "T").status ∈
      ["已兑换", "无效", "有效", "未知"] :=
  ⟨by decide, by decide,
   (parseBalance_status_closed_set "该卡过期" "" "X" "T").2 (by decide) (by decide),
   (parseBalance_status_closed_set "该卡过期" "" "X" "T").1⟩
